import Mathlib

/-!
Verification development for the Wallet full-stack personal-finance application.

The frontend TypeScript sources (`Wallet-Frontend/src`) are embedded shallowly:
JavaScript numbers are modelled as rationals (`ℚ`), `Math.round` as
floor-of-plus-half, JS object maps as association lists preserving insertion
order, and `sessionStorage` as a partial map from string keys to string values.
Backend behaviour that is only described by the design document (the FastAPI
transfer endpoint and the recurring-transaction engine) is modelled from the
spec and marked as such in the corresponding doc comments.
-/

namespace Wallet

/-- Currency enum from `models/Account.ts`. -/
inductive Currency
  | USD
  | EGP
  | GBP
  | EUR
deriving DecidableEq, Repr

/-- AccountType enum from `models/Account.ts`. -/
inductive AccountType
  | CHECKING
  | SAVINGS
  | CREDIT
  | DEBIT
  | INVESTMENT
  | CASH
deriving DecidableEq, Repr

/-- TransactionType enum from `models/Transaction.ts`. -/
inductive TransactionType
  | INCOME
  | EXPENSE
  | TRANSFER
deriving DecidableEq, Repr

/-- RecurrenceFrequency enum from `models/Transaction.ts`. -/
inductive RecurrenceFrequency
  | DAILY
  | WEEKLY
  | MONTHLY
  | QUARTERLY
  | YEARLY
deriving DecidableEq, Repr

/-- Calendar date, standing for the ISO date strings stored by the app
(`new Date(t.date).getFullYear()` and friends extract these fields). -/
structure DateYMD where
  year : Nat
  month : Nat
  day : Nat
deriving DecidableEq, Repr

/-- Account record from `models/Account.ts`. -/
structure Account where
  id : Nat
  name : String
  type : AccountType
  initial_balance : ℚ
  currency : Currency
  owner_id : Nat
deriving DecidableEq, Repr

/-- Transaction record from `models/Transaction.ts`. -/
structure Transaction where
  id : Nat
  amount : ℚ
  type : TransactionType
  description : Option String := none
  date : DateYMD
  currency : Currency
  account_id : Nat
  category_id : Option Nat := none
  owner_id : Nat := 0
  recurring_transaction_id : Option Nat := none
deriving DecidableEq, Repr

/-- RecurringTransaction record from `models/Transaction.ts`. -/
structure RecurringTransaction where
  id : Nat
  name : String
  amount : ℚ
  type : TransactionType
  description : Option String := none
  currency : Currency
  frequency : RecurrenceFrequency
  start_date : DateYMD
  end_date : Option DateYMD := none
  next_due_date : DateYMD
  is_active : Bool
  account_id : Nat
  category_id : Option Nat := none
  owner_id : Nat := 0
deriving DecidableEq, Repr

/-- TransferCreateRequest from `services/transactionService.ts`. -/
structure TransferCreateRequest where
  from_account_id : Nat
  to_account_id : Nat
  amount : ℚ
  converted_amount : Option ℚ := none
  description : Option String := none
deriving DecidableEq, Repr

/-- JavaScript `Math.round`: round to the nearest integer, halves toward
positive infinity. -/
def jsRound (q : ℚ) : ℤ := ⌊q + 1 / 2⌋

/-- `Math.round(q * 100) / 100`, the 2-decimal rounding used in
`TransferPage.tsx`. -/
def round2 (q : ℚ) : ℚ := (jsRound (q * 100) : ℚ) / 100

/-- `Math.round(q * 10000) / 10000`, the 4-decimal rounding used in
`TransferPage.tsx`. -/
def round4 (q : ℚ) : ℚ := (jsRound (q * 10000) : ℚ) / 10000

/-- `exchangeRates[c] || 1` from `TransferPage.tsx` lines 90–91: a missing
entry, and also a stored rate of `0` (falsy in JS), default to `1`. -/
def jsRateOrOne (exchangeRates : Currency → Option ℚ) (c : Currency) : ℚ :=
  match exchangeRates c with
  | none => 1
  | some r => if r = 0 then 1 else r

/-- Result record of `getConversionPreview` in `TransferPage.tsx`. -/
structure ConversionPreview where
  originalAmount : ℚ
  convertedAmount : ℚ
  exchangeRate : ℚ
  sameCurrency : Bool
  isCustomRate : Bool
deriving DecidableEq, Repr

/-- The computed-rate branch of `getConversionPreview`
(`TransferPage.tsx` lines 89–103): divide by the source currency's
rate-to-USD, multiply by the destination currency's rate-to-USD, round the
converted amount to 2 decimals and the rate to 4 decimals. -/
def computedConversionPreview (fromAccount toAccount : Account) (amount : ℚ)
    (exchangeRates : Currency → Option ℚ) : ConversionPreview :=
  let fromRate := jsRateOrOne exchangeRates fromAccount.currency
  let toRate := jsRateOrOne exchangeRates toAccount.currency
  let usdAmount := amount / fromRate
  let convertedAmount := usdAmount * toRate
  let exchangeRate := convertedAmount / amount
  { originalAmount := amount
    convertedAmount := round2 convertedAmount
    exchangeRate := round4 exchangeRate
    sameCurrency := false
    isCustomRate := false }

/-- `getConversionPreview` from `TransferPage.tsx` lines 64–103.
`accounts.find?` stands for `accounts.find(a => a.id === ...)`; a JS `null`
return is `none`. The custom branch mirrors
`useCustomRate && transferData.converted_amount && transferData.converted_amount > 0`
(an absent or zero `converted_amount` is falsy). -/
def getConversionPreview (accounts : List Account)
    (transferData : TransferCreateRequest) (useCustomRate : Bool)
    (exchangeRates : Currency → Option ℚ) : Option ConversionPreview :=
  match accounts.find? (fun a => a.id == transferData.from_account_id),
        accounts.find? (fun a => a.id == transferData.to_account_id) with
  | some fromAccount, some toAccount =>
    if transferData.amount ≤ 0 then none
    else if fromAccount.currency = toAccount.currency then
      some { originalAmount := transferData.amount
             convertedAmount := transferData.amount
             exchangeRate := 1
             sameCurrency := true
             isCustomRate := false }
    else
      match transferData.converted_amount with
      | some ca =>
        if useCustomRate && decide (0 < ca) then
          some { originalAmount := transferData.amount
                 convertedAmount := ca
                 exchangeRate := round4 (ca / transferData.amount)
                 sameCurrency := false
                 isCustomRate := true }
        else
          some (computedConversionPreview fromAccount toAccount
            transferData.amount exchangeRates)
      | none =>
        some (computedConversionPreview fromAccount toAccount
          transferData.amount exchangeRates)
  | _, _ => none

/-- Result record of `calculateTotalBalance` in `Dashboard.tsx` and
`AnalyticsPage.tsx`. -/
structure TotalBalance where
  amount : ℚ
  currency : Currency
deriving DecidableEq, Repr

/-- One step of building `currencyTotals`
(`acc[account.currency] = (acc[account.currency] || 0) + account.initial_balance`):
add to the existing entry in place, or append a new entry, preserving the JS
object's insertion order. -/
def addToCurrencyTotals : List (Currency × ℚ) → Currency → ℚ → List (Currency × ℚ)
  | [], c, q => [(c, q)]
  | (c0, q0) :: rest, c, q =>
    if c0 = c then (c0, q0 + q) :: rest
    else (c0, q0) :: addToCurrencyTotals rest c q

/-- The `currencyTotals` reduce of `calculateTotalBalance`
(`Dashboard.tsx` lines 54–57): per-currency sums of `initial_balance`, in
first-appearance order (the order `Object.entries` yields). -/
def currencyTotals (accounts : List Account) : List (Currency × ℚ) :=
  accounts.foldl (fun acc a => addToCurrencyTotals acc a.currency a.initial_balance) []

/-- The reduce callback of the dominant-currency fold
(`amount > max.amount ? { currency, amount } : max`). -/
def pickBetter (best p : Currency × ℚ) : Currency × ℚ :=
  if p.2 > best.2 then p else best

/-- The dominant-currency reduce of `calculateTotalBalance`
(`Dashboard.tsx` lines 59–62), with initial value `{ currency: USD, amount: 0 }`. -/
def pickDominantPair (entries : List (Currency × ℚ)) : Currency × ℚ :=
  entries.foldl pickBetter (Currency.USD, 0)

/-- `calculateTotalBalance` from `Dashboard.tsx` lines 42–66; the identical
function appears in `AnalyticsPage.tsx` (unnamed part_002 lines 542–564). -/
def calculateTotalBalance (accounts : List Account) : TotalBalance :=
  match accounts with
  | [] => { amount := 0, currency := Currency.USD }
  | first :: rest =>
    if (first :: rest).all (fun a => a.currency == first.currency) then
      { amount := (first :: rest).foldl (fun sum a => sum + a.initial_balance) 0
        currency := first.currency }
    else
      let dominant := pickDominantPair (currencyTotals (first :: rest))
      { amount := dominant.2, currency := dominant.1 }

/-- `accountService.getTotalBalance` from `services/accountService.ts`
lines 42–45: the sum of the accounts' `initial_balance` fields. -/
def getTotalBalance (accounts : List Account) : ℚ :=
  accounts.foldl (fun total a => total + a.initial_balance) 0

/-- `monthlyTransactions` from `Dashboard.tsx` lines 73–76 (also
`AnalyticsPage.tsx`): transactions dated in the current month and year. -/
def monthlyTransactions (transactions : List Transaction)
    (currentMonth currentYear : Nat) : List Transaction :=
  transactions.filter (fun t => t.date.month == currentMonth && t.date.year == currentYear)

/-- `monthlyIncome` from `Dashboard.tsx` lines 79–84: monthly INCOME
transactions whose currency equals the display currency chosen by
`calculateTotalBalance`, summed. -/
def monthlyIncome (transactions : List Transaction) (currentMonth currentYear : Nat)
    (accounts : List Account) : ℚ :=
  (((monthlyTransactions transactions currentMonth currentYear).filter
      (fun t => t.type == TransactionType.INCOME)).filter
      (fun t => t.currency == (calculateTotalBalance accounts).currency)).foldl
    (fun sum t => sum + t.amount) 0

/-- `monthlyExpenses` from `Dashboard.tsx` lines 80–88: monthly EXPENSE
transactions whose currency equals the display currency chosen by
`calculateTotalBalance`, summed. -/
def monthlyExpenses (transactions : List Transaction) (currentMonth currentYear : Nat)
    (accounts : List Account) : ℚ :=
  (((monthlyTransactions transactions currentMonth currentYear).filter
      (fun t => t.type == TransactionType.EXPENSE)).filter
      (fun t => t.currency == (calculateTotalBalance accounts).currency)).foldl
    (fun sum t => sum + t.amount) 0

/-- Sign convention of spec §3: the amount is a positive magnitude and the
type encodes the direction. Stated from the spec's words for comparison with
the code-side balance computations. -/
def signedAmount (t : Transaction) : ℚ :=
  match t.type with
  | TransactionType.INCOME => t.amount
  | TransactionType.EXPENSE => -t.amount
  | TransactionType.TRANSFER => -t.amount

/-- Balance formula stated by spec §4.1: `initial_balance + Σ(signed
transaction amounts in that account's currency)`. Stated from the spec's
words for comparison with the code-side balance computations. -/
def specAccountBalance (a : Account) (transactions : List Transaction) : ℚ :=
  a.initial_balance +
    ((transactions.filter (fun t => t.account_id == a.id && t.currency == a.currency)).map
      signedAmount).sum

/-- Key `'login_form_username'` from `utils/loginFormState.ts`. -/
def usernameKey : String := "login_form_username"

/-- Key `'login_form_password'` from `utils/loginFormState.ts`. -/
def passwordKey : String := "login_form_password"

/-- Browser `sessionStorage`, as a partial map from string keys to string
values. -/
def SessionStorage : Type := String → Option String

/-- `sessionStorage.setItem(key, value)`. -/
def setItem (st : SessionStorage) (key value : String) : SessionStorage :=
  fun k => if k = key then some value else st k

/-- `sessionStorage.removeItem(key)`. -/
def removeItem (st : SessionStorage) (key : String) : SessionStorage :=
  fun k => if k = key then none else st k

/-- Private fields of `LoginFormStateManager` in `utils/loginFormState.ts`. -/
structure LoginFormManagerState where
  username : String
  password : String
  initialized : Bool
deriving DecidableEq, Repr

/-- `loadFromStorage` from `utils/loginFormState.ts` lines 11–17.
`windowDefined` stands for `typeof window !== 'undefined'`; the pattern
`sessionStorage.getItem(k) || ''` turns a missing value into the empty
string, which `Option.getD` mirrors. -/
def loadFromStorage (windowDefined : Bool) (st : SessionStorage)
    (s : LoginFormManagerState) : LoginFormManagerState :=
  if windowDefined then
    { username := (st usernameKey).getD ""
      password := (st passwordKey).getD ""
      initialized := true }
  else s

/-- `getUsername` from `utils/loginFormState.ts` lines 19–22: reloads from
storage when not yet initialized, then returns the cached field (the pair
carries the possibly-updated manager state). -/
def getUsername (windowDefined : Bool) (st : SessionStorage)
    (s : LoginFormManagerState) : String × LoginFormManagerState :=
  let s1 := if s.initialized then s else loadFromStorage windowDefined st s
  (s1.username, s1)

/-- `getPassword` from `utils/loginFormState.ts` lines 24–27. -/
def getPassword (windowDefined : Bool) (st : SessionStorage)
    (s : LoginFormManagerState) : String × LoginFormManagerState :=
  let s1 := if s.initialized then s else loadFromStorage windowDefined st s
  (s1.password, s1)

/-- `setUsername` from `utils/loginFormState.ts` lines 29–34: update the
field and persist under `'login_form_username'` when a window exists. -/
def setUsername (windowDefined : Bool) (st : SessionStorage)
    (s : LoginFormManagerState) (value : String) :
    LoginFormManagerState × SessionStorage :=
  ({ s with username := value },
   if windowDefined then setItem st usernameKey value else st)

/-- `setPassword` from `utils/loginFormState.ts` lines 36–41. -/
def setPassword (windowDefined : Bool) (st : SessionStorage)
    (s : LoginFormManagerState) (value : String) :
    LoginFormManagerState × SessionStorage :=
  ({ s with password := value },
   if windowDefined then setItem st passwordKey value else st)

/-- `clear` from `utils/loginFormState.ts` lines 43–50: blank both fields and
remove both `sessionStorage` keys. -/
def clearLoginForm (windowDefined : Bool) (st : SessionStorage)
    (s : LoginFormManagerState) : LoginFormManagerState × SessionStorage :=
  ({ s with username := "", password := "" },
   if windowDefined then removeItem (removeItem st usernameKey) passwordKey else st)

/-- Outcome of the `handleSubmit` handler in `TransferPage.tsx`
lines 107–114: identical source and destination accounts show an alert and
return early; otherwise the confirmation preview opens. -/
inductive SubmitAction
  | blocked
  | showPreview
deriving DecidableEq, Repr

/-- `handleSubmit` from `TransferPage.tsx` lines 107–114, restricted to its
data flow: the guard on `from_account_id === to_account_id`. -/
def handleSubmit (transferData : TransferCreateRequest) : SubmitAction :=
  if transferData.from_account_id = transferData.to_account_id then
    SubmitAction.blocked
  else SubmitAction.showPreview

/-- Error taxonomy of spec §7 restricted to the transfer endpoint. -/
inductive TransferError
  | validationError
  | notFoundError
deriving DecidableEq, Repr

/-- Rows created by a transfer per spec §4.1: one EXPENSE posting on the
source account and one INCOME posting on the destination account. -/
def transferRows (fa ta : Account) (amount convertedAmount : ℚ)
    (today : DateYMD) : List Transaction :=
  [ { id := 0, amount := amount, type := TransactionType.EXPENSE,
      date := today, currency := fa.currency, account_id := fa.id,
      owner_id := fa.owner_id },
    { id := 0, amount := convertedAmount, type := TransactionType.INCOME,
      date := today, currency := ta.currency, account_id := ta.id,
      owner_id := ta.owner_id } ]

/-- Modelled from the spec: the backend handler of
`POST /transactions/transfers` is not among the sources under review (only
the frontend client of it is), so this follows spec §4.1 word for word:
ValidationError for a non-positive amount, identical accounts, or a supplied
non-positive `converted_amount`; NotFoundError for a missing account;
otherwise two rows are appended, converting with rate 1 for same-currency
transfers, with the caller-supplied `converted_amount` when given, and via
the USD pivot of the exchange-rate table otherwise. -/
def processTransfer (accounts : List Account) (db : List Transaction)
    (req : TransferCreateRequest) (rates : Currency → Option ℚ)
    (today : DateYMD) : Except TransferError (List Transaction) :=
  if req.amount ≤ 0 then Except.error TransferError.validationError
  else if req.from_account_id = req.to_account_id then
    Except.error TransferError.validationError
  else
    match accounts.find? (fun a => a.id == req.from_account_id),
          accounts.find? (fun a => a.id == req.to_account_id) with
    | some fa, some ta =>
      match req.converted_amount with
      | some ca =>
        if ca ≤ 0 then Except.error TransferError.validationError
        else
          let converted := if fa.currency = ta.currency then req.amount else ca
          Except.ok (db ++ transferRows fa ta req.amount converted today)
      | none =>
        let converted :=
          if fa.currency = ta.currency then req.amount
          else req.amount / jsRateOrOne rates fa.currency *
            jsRateOrOne rates ta.currency
        Except.ok (db ++ transferRows fa ta req.amount converted today)
    | _, _ => Except.error TransferError.notFoundError

/-- Transaction store contents after a transfer attempt: the new row list on
success, the unchanged store on error. -/
def dbAfterTransfer (accounts : List Account) (db : List Transaction)
    (req : TransferCreateRequest) (rates : Currency → Option ℚ)
    (today : DateYMD) : List Transaction :=
  match processTransfer accounts db req rates today with
  | Except.ok db2 => db2
  | Except.error _ => db

/-- Leap-year rule of the Gregorian calendar. -/
def isLeapYear (y : Nat) : Bool :=
  (y % 4 == 0 && y % 100 != 0) || y % 400 == 0

/-- Number of days in a month. -/
def daysInMonth (y m : Nat) : Nat :=
  if m = 2 then (if isLeapYear y then 29 else 28)
  else if m = 4 ∨ m = 6 ∨ m = 9 ∨ m = 11 then 30
  else 31

/-- Successor day in the calendar. -/
def nextDay (d : DateYMD) : DateYMD :=
  if d.day < daysInMonth d.year d.month then { d with day := d.day + 1 }
  else if d.month < 12 then { year := d.year, month := d.month + 1, day := 1 }
  else { year := d.year + 1, month := 1, day := 1 }

/-- Advance a date by `n` calendar months, clamping the day-of-month to the
last valid day of the target month (so the day is preserved where valid). -/
def addMonthsClamped (n : Nat) (d : DateYMD) : DateYMD :=
  let total := d.year * 12 + (d.month - 1) + n
  let y := total / 12
  let m := total % 12 + 1
  { year := y, month := m, day := min d.day (daysInMonth y m) }

/-- Modelled from the spec: the backend Recurring Transaction Engine is not
among the sources under review, so this follows spec §4.2: advance
`next_due_date` by one period of the template's frequency — DAILY +1 day,
WEEKLY +7 days, MONTHLY +1 calendar month, QUARTERLY +3 calendar months,
YEARLY +1 calendar year — preserving the day-of-month where valid. -/
def advanceDueDate (f : RecurrenceFrequency) (d : DateYMD) : DateYMD :=
  match f with
  | RecurrenceFrequency.DAILY => nextDay d
  | RecurrenceFrequency.WEEKLY => nextDay^[7] d
  | RecurrenceFrequency.MONTHLY => addMonthsClamped 1 d
  | RecurrenceFrequency.QUARTERLY => addMonthsClamped 3 d
  | RecurrenceFrequency.YEARLY => addMonthsClamped 12 d

/-- Strict lexicographic order on dates. -/
def dateLtB (a b : DateYMD) : Bool :=
  decide (a.year < b.year) ||
    (decide (a.year = b.year) &&
      (decide (a.month < b.month) ||
        (decide (a.month = b.month) && decide (a.day < b.day))))

/-- Error taxonomy of spec §4.2 for firing a recurring template. -/
inductive RecurringError
  | notFoundError
  | inactiveTemplate
deriving DecidableEq, Repr

/-- Modelled from the spec: one firing of a recurring template (spec §4.2).
An inactive template is rejected; an active one yields a Transaction that
back-references the template, the `next_due_date` advanced by one period of
the frequency, and deactivation when the new due date passes `end_date`. -/
def fireTemplate (today : DateYMD) (t : RecurringTransaction) :
    Except RecurringError (Transaction × RecurringTransaction) :=
  if t.is_active then
    let newDue := advanceDueDate t.frequency t.next_due_date
    let stillActive :=
      match t.end_date with
      | some ed => ! dateLtB ed newDue
      | none => true
    Except.ok
      ({ id := 0, amount := t.amount, type := t.type,
         description := t.description, date := today, currency := t.currency,
         account_id := t.account_id, category_id := t.category_id,
         owner_id := t.owner_id, recurring_transaction_id := some t.id },
       { t with next_due_date := newDue, is_active := stillActive })
  else Except.error RecurringError.inactiveTemplate

/-- Folding addition over a projection equals the initial value plus the sum
of the mapped list. -/
lemma foldl_add_map {α : Type} (f : α → ℚ) :
    ∀ (l : List α) (s : ℚ),
      l.foldl (fun acc x => acc + f x) s = s + (l.map f).sum := by
  intro l
  induction l with
  | nil => intro s; simp
  | cons x xs ih =>
    intro s
    rw [List.foldl_cons, ih]
    simp [add_assoc]

/-- The dominant-currency fold returns its initial value or an element of the
entry list. -/
lemma pickBetter_foldl_mem (l : List (Currency × ℚ)) :
    ∀ init : Currency × ℚ,
      l.foldl pickBetter init = init ∨ l.foldl pickBetter init ∈ l := by
  induction l with
  | nil => intro init; left; rfl
  | cons p ps ih =>
    intro init
    rw [List.foldl_cons]
    rcases ih (pickBetter init p) with h | h
    · by_cases hlt : init.2 < p.2
      · right; rw [h]; simp [pickBetter, hlt]
      · left; rw [h]; simp [pickBetter, hlt]
    · right; exact List.mem_cons_of_mem _ h

/-- The dominant-currency fold returns an amount at least as large as the
initial amount and as every entry's amount. -/
lemma pickBetter_foldl_le (l : List (Currency × ℚ)) :
    ∀ init : Currency × ℚ,
      init.2 ≤ (l.foldl pickBetter init).2 ∧
        ∀ p ∈ l, p.2 ≤ (l.foldl pickBetter init).2 := by
  induction l with
  | nil => intro init; exact ⟨le_refl _, by simp⟩
  | cons q qs ih =>
    intro init
    rw [List.foldl_cons]
    obtain ⟨h1, h2⟩ := ih (pickBetter init q)
    have hq : q.2 ≤ (pickBetter init q).2 ∧ init.2 ≤ (pickBetter init q).2 := by
      by_cases hlt : init.2 < q.2
      · simp only [pickBetter, gt_iff_lt, if_pos hlt]
        exact ⟨le_refl _, le_of_lt hlt⟩
      · simp only [pickBetter, gt_iff_lt, if_neg hlt]
        exact ⟨le_of_not_lt hlt, le_refl _⟩
    refine ⟨le_trans hq.2 h1, ?_⟩
    intro p hp
    rcases List.mem_cons.mp hp with rfl | hp2
    · exact le_trans hq.1 h1
    · exact h2 p hp2

/-- When one entry's amount is positive and strictly larger than every other
entry's, the dominant-currency fold returns exactly that entry. -/
lemma pickDominantPair_eq (l : List (Currency × ℚ)) (c : Currency) (amt : ℚ)
    (hmem : (c, amt) ∈ l) (hpos : 0 < amt)
    (hmax : ∀ p ∈ l, p ≠ (c, amt) → p.2 < amt) :
    pickDominantPair l = (c, amt) := by
  unfold pickDominantPair
  have hA := pickBetter_foldl_mem l (Currency.USD, 0)
  have hB := pickBetter_foldl_le l (Currency.USD, 0)
  have hr2 : amt ≤ (l.foldl pickBetter (Currency.USD, 0)).2 := hB.2 (c, amt) hmem
  rcases hA with h | h
  · rw [h] at hr2
    exact absurd (lt_of_lt_of_le hpos hr2) (lt_irrefl 0)
  · by_cases he : l.foldl pickBetter (Currency.USD, 0) = (c, amt)
    · exact he
    · exact absurd hr2 (not_le.mpr (hmax _ h he))

/-- C3: for the account list `[{EUR,100},{EUR,50},{USD,30}]` the total-balance
aggregation of `calculateTotalBalance` reports exactly 150 EUR — the sum over
the accounts of the dominant currency only, not a converted grand total. -/
theorem dominant_currency_example_150_eur :
    calculateTotalBalance
      [ { id := 1, name := "A", type := AccountType.CHECKING,
          initial_balance := 100, currency := Currency.EUR, owner_id := 1 },
        { id := 2, name := "B", type := AccountType.SAVINGS,
          initial_balance := 50, currency := Currency.EUR, owner_id := 1 },
        { id := 3, name := "C", type := AccountType.CHECKING,
          initial_balance := 30, currency := Currency.USD, owner_id := 1 } ] =
      { amount := 150, currency := Currency.EUR } := by
  norm_num +decide [calculateTotalBalance, currencyTotals, addToCurrencyTotals,
    pickDominantPair, pickBetter]

/-- C6: a transfer preview between two accounts of the same currency has
exchange rate 1 and converted amount equal to the input amount, and the
result does not depend on the exchange-rate table (no lookup is performed). -/
theorem same_currency_transfer_rate_one
    (accounts : List Account) (td : TransferCreateRequest) (ucr : Bool)
    (rates : Currency → Option ℚ) (fa ta : Account)
    (hf : accounts.find? (fun a => a.id == td.from_account_id) = some fa)
    (ht : accounts.find? (fun a => a.id == td.to_account_id) = some ta)
    (hcur : fa.currency = ta.currency)
    (hamt : 0 < td.amount) :
    getConversionPreview accounts td ucr rates =
      some { originalAmount := td.amount, convertedAmount := td.amount,
             exchangeRate := 1, sameCurrency := true, isCustomRate := false } ∧
    ∀ rates2 : Currency → Option ℚ,
      getConversionPreview accounts td ucr rates2 =
        getConversionPreview accounts td ucr rates := by
  have hnle : ¬ td.amount ≤ 0 := not_le.mpr hamt
  constructor
  · simp [getConversionPreview, hf, ht, hnle, hcur]
  · intro rates2
    simp [getConversionPreview, hf, ht, hnle, hcur]

/-- C6 witness: a concrete same-currency transfer of 25 between two USD
accounts previews as 25 at rate 1, for any contents of the rate table. -/
theorem same_currency_transfer_rate_one_witness :
    getConversionPreview
      [ { id := 1, name := "A", type := AccountType.CHECKING,
          initial_balance := 0, currency := Currency.USD, owner_id := 1 },
        { id := 2, name := "B", type := AccountType.SAVINGS,
          initial_balance := 0, currency := Currency.USD, owner_id := 1 } ]
      { from_account_id := 1, to_account_id := 2, amount := 25 }
      false (fun _ => none) =
      some { originalAmount := 25, convertedAmount := 25,
             exchangeRate := 1, sameCurrency := true, isCustomRate := false } ∧
    ∀ rates2 : Currency → Option ℚ,
      getConversionPreview
        [ { id := 1, name := "A", type := AccountType.CHECKING,
            initial_balance := 0, currency := Currency.USD, owner_id := 1 },
          { id := 2, name := "B", type := AccountType.SAVINGS,
            initial_balance := 0, currency := Currency.USD, owner_id := 1 } ]
        { from_account_id := 1, to_account_id := 2, amount := 25 }
        false rates2 =
      getConversionPreview
        [ { id := 1, name := "A", type := AccountType.CHECKING,
            initial_balance := 0, currency := Currency.USD, owner_id := 1 },
          { id := 2, name := "B", type := AccountType.SAVINGS,
            initial_balance := 0, currency := Currency.USD, owner_id := 1 } ]
        { from_account_id := 1, to_account_id := 2, amount := 25 }
        false (fun _ => none) :=
  same_currency_transfer_rate_one _ _ _ _ _ _ rfl rfl rfl (by norm_num)

/-- C1: for a cross-currency transfer with no caller-supplied
`converted_amount`, the preview looks both rates up in the exchange-rate
table, converts the amount to USD and then to the destination currency, and
returns the converted amount rounded to 2 decimals and the rate rounded to
4 decimals. -/
theorem computed_rate_conversion_usd_pivot
    (accounts : List Account) (td : TransferCreateRequest) (ucr : Bool)
    (rates : Currency → Option ℚ) (fa ta : Account) (rf rt : ℚ)
    (hf : accounts.find? (fun a => a.id == td.from_account_id) = some fa)
    (ht : accounts.find? (fun a => a.id == td.to_account_id) = some ta)
    (hcur : fa.currency ≠ ta.currency)
    (hamt : 0 < td.amount)
    (hno : td.converted_amount = none)
    (hrf : rates fa.currency = some rf) (hrf0 : rf ≠ 0)
    (hrt : rates ta.currency = some rt) (hrt0 : rt ≠ 0) :
    getConversionPreview accounts td ucr rates =
      some { originalAmount := td.amount
             convertedAmount := round2 (td.amount / rf * rt)
             exchangeRate := round4 (td.amount / rf * rt / td.amount)
             sameCurrency := false
             isCustomRate := false } := by
  have hnle : ¬ td.amount ≤ 0 := not_le.mpr hamt
  simp [getConversionPreview, hf, ht, hnle, hcur, hno,
    computedConversionPreview, jsRateOrOne, hrf, hrt, hrf0, hrt0]

/-- C1 witness: transferring 100 USD into a EUR account, with the table
holding 1 for USD and 1/2 for EUR (rates to USD), previews as 50 at rate
0.5. -/
theorem computed_rate_conversion_usd_pivot_witness :
    getConversionPreview
      [ { id := 1, name := "A", type := AccountType.CHECKING,
          initial_balance := 0, currency := Currency.USD, owner_id := 1 },
        { id := 2, name := "B", type := AccountType.SAVINGS,
          initial_balance := 0, currency := Currency.EUR, owner_id := 1 } ]
      { from_account_id := 1, to_account_id := 2, amount := 100 }
      false
      (fun c => match c with
        | Currency.USD => some 1
        | Currency.EUR => some (1 / 2)
        | _ => none) =
      some { originalAmount := 100, convertedAmount := 50,
             exchangeRate := 1 / 2, sameCurrency := false,
             isCustomRate := false } := by
  have h := computed_rate_conversion_usd_pivot
    [ { id := 1, name := "A", type := AccountType.CHECKING,
        initial_balance := 0, currency := Currency.USD, owner_id := 1 },
      { id := 2, name := "B", type := AccountType.SAVINGS,
        initial_balance := 0, currency := Currency.EUR, owner_id := 1 } ]
    { from_account_id := 1, to_account_id := 2, amount := 100 }
    false
    (fun c => match c with
      | Currency.USD => some 1
      | Currency.EUR => some (1 / 2)
      | _ => none)
    _ _ 1 (1 / 2) rfl rfl (by decide) (by norm_num) rfl rfl one_ne_zero rfl
    (by norm_num)
  exact h.trans (by norm_num [round2, round4, jsRound])

/-- C5 counterexample: the claim fails on `getConversionPreview` as written.
With a caller-supplied `converted_amount = 50` on an `amount = 100` transfer,
the claimed rate is `round(50/100, 4) = 0.5`; but (a) between two
same-currency accounts the code returns rate 1, and (b) with the custom-rate
checkbox off the code ignores the supplied amount and computes rate 1 from
the (empty) table — in both cases not 0.5. -/
theorem custom_rate_claim_cex :
    getConversionPreview
      [ { id := 1, name := "A", type := AccountType.CHECKING,
          initial_balance := 0, currency := Currency.USD, owner_id := 1 },
        { id := 2, name := "B", type := AccountType.SAVINGS,
          initial_balance := 0, currency := Currency.USD, owner_id := 1 } ]
      { from_account_id := 1, to_account_id := 2, amount := 100,
        converted_amount := some 50 } true (fun _ => none) =
      some { originalAmount := 100, convertedAmount := 100, exchangeRate := 1,
             sameCurrency := true, isCustomRate := false } ∧
    getConversionPreview
      [ { id := 1, name := "A", type := AccountType.CHECKING,
          initial_balance := 0, currency := Currency.USD, owner_id := 1 },
        { id := 2, name := "B", type := AccountType.SAVINGS,
          initial_balance := 0, currency := Currency.EUR, owner_id := 1 } ]
      { from_account_id := 1, to_account_id := 2, amount := 100,
        converted_amount := some 50 } false (fun _ => none) =
      some { originalAmount := 100, convertedAmount := 100, exchangeRate := 1,
             sameCurrency := false, isCustomRate := false } ∧
    (1 : ℚ) ≠ round4 ((50 : ℚ) / 100) := by
  refine ⟨?_, ?_, ?_⟩
  · norm_num +decide [getConversionPreview, List.find?]
  · norm_num +decide [getConversionPreview, List.find?,
      computedConversionPreview, jsRateOrOne, round2, round4, jsRound]
  · norm_num [round4, jsRound]

/-- C5 amended: for a cross-currency transfer with the custom-rate option
enabled and a caller-supplied `converted_amount > 0`, the preview's exchange
rate is `round(converted_amount / amount, 4)` and the converted amount is the
supplied one, regardless of the exchange-rate table. -/
theorem custom_rate_priority_cross_currency
    (accounts : List Account) (td : TransferCreateRequest)
    (rates : Currency → Option ℚ) (fa ta : Account) (ca : ℚ)
    (hf : accounts.find? (fun a => a.id == td.from_account_id) = some fa)
    (ht : accounts.find? (fun a => a.id == td.to_account_id) = some ta)
    (hcur : fa.currency ≠ ta.currency)
    (hamt : 0 < td.amount)
    (hca : td.converted_amount = some ca)
    (hcapos : 0 < ca) :
    getConversionPreview accounts td true rates =
      some { originalAmount := td.amount, convertedAmount := ca,
             exchangeRate := round4 (ca / td.amount),
             sameCurrency := false, isCustomRate := true } ∧
    ∀ rates2 : Currency → Option ℚ,
      getConversionPreview accounts td true rates2 =
        getConversionPreview accounts td true rates := by
  have hnle : ¬ td.amount ≤ 0 := not_le.mpr hamt
  constructor
  · simp [getConversionPreview, hf, ht, hnle, hcur, hca, hcapos]
  · intro rates2
    simp [getConversionPreview, hf, ht, hnle, hcur, hca, hcapos]

/-- C5 amended witness: supplying 50 for a 100 USD→EUR transfer with the
custom-rate option on gives rate 0.5 with an empty rate table. -/
theorem custom_rate_priority_cross_currency_witness :
    getConversionPreview
      [ { id := 1, name := "A", type := AccountType.CHECKING,
          initial_balance := 0, currency := Currency.USD, owner_id := 1 },
        { id := 2, name := "B", type := AccountType.SAVINGS,
          initial_balance := 0, currency := Currency.EUR, owner_id := 1 } ]
      { from_account_id := 1, to_account_id := 2, amount := 100,
        converted_amount := some 50 } true (fun _ => none) =
      some { originalAmount := 100, convertedAmount := 50,
             exchangeRate := 1 / 2, sameCurrency := false,
             isCustomRate := true } := by
  have h := custom_rate_priority_cross_currency
    [ { id := 1, name := "A", type := AccountType.CHECKING,
        initial_balance := 0, currency := Currency.USD, owner_id := 1 },
      { id := 2, name := "B", type := AccountType.SAVINGS,
        initial_balance := 0, currency := Currency.EUR, owner_id := 1 } ]
    { from_account_id := 1, to_account_id := 2, amount := 100,
      converted_amount := some 50 }
    (fun _ => none) _ _ 50 rfl rfl (by decide) (by norm_num) rfl (by norm_num)
  exact h.1.trans (by norm_num [round4, jsRound])

/-- C9: a cross-currency computed-rate conversion with a currency missing
from the exchange-rate table does not fail: the missing rate defaults to 1
and a converted amount and exchange rate are still produced. -/
theorem missing_rate_defaults_to_one
    (accounts : List Account) (td : TransferCreateRequest) (ucr : Bool)
    (rates : Currency → Option ℚ) (fa ta : Account)
    (hf : accounts.find? (fun a => a.id == td.from_account_id) = some fa)
    (ht : accounts.find? (fun a => a.id == td.to_account_id) = some ta)
    (hcur : fa.currency ≠ ta.currency)
    (hamt : 0 < td.amount)
    (hno : td.converted_amount = none)
    (_hmiss : rates fa.currency = none ∨ rates ta.currency = none) :
    (getConversionPreview accounts td ucr rates).isSome = true ∧
    getConversionPreview accounts td ucr rates =
      some (computedConversionPreview fa ta td.amount rates) ∧
    (rates fa.currency = none → jsRateOrOne rates fa.currency = 1) ∧
    (rates ta.currency = none → jsRateOrOne rates ta.currency = 1) := by
  have hnle : ¬ td.amount ≤ 0 := not_le.mpr hamt
  refine ⟨?_, ?_, ?_, ?_⟩
  · simp [getConversionPreview, hf, ht, hnle, hcur, hno]
  · simp [getConversionPreview, hf, ht, hnle, hcur, hno]
  · intro h; simp [jsRateOrOne, h]
  · intro h; simp [jsRateOrOne, h]

/-- C9 witness: transferring 100 USD into an EGP account with a table that
has no USD entry still previews, using rate 1 for USD: with EGP at 49 the
result is 4900 at rate 49. -/
theorem missing_rate_defaults_to_one_witness :
    (getConversionPreview
        [ { id := 1, name := "A", type := AccountType.CHECKING,
            initial_balance := 0, currency := Currency.USD, owner_id := 1 },
          { id := 2, name := "B", type := AccountType.SAVINGS,
            initial_balance := 0, currency := Currency.EGP, owner_id := 1 } ]
        { from_account_id := 1, to_account_id := 2, amount := 100 }
        false
        (fun c => match c with
          | Currency.EGP => some 49
          | _ => none)).isSome = true ∧
    getConversionPreview
      [ { id := 1, name := "A", type := AccountType.CHECKING,
          initial_balance := 0, currency := Currency.USD, owner_id := 1 },
        { id := 2, name := "B", type := AccountType.SAVINGS,
          initial_balance := 0, currency := Currency.EGP, owner_id := 1 } ]
      { from_account_id := 1, to_account_id := 2, amount := 100 }
      false
      (fun c => match c with
        | Currency.EGP => some 49
        | _ => none) =
      some { originalAmount := 100, convertedAmount := 4900,
             exchangeRate := 49, sameCurrency := false,
             isCustomRate := false } := by
  have h := missing_rate_defaults_to_one
    [ { id := 1, name := "A", type := AccountType.CHECKING,
        initial_balance := 0, currency := Currency.USD, owner_id := 1 },
      { id := 2, name := "B", type := AccountType.SAVINGS,
        initial_balance := 0, currency := Currency.EGP, owner_id := 1 } ]
    { from_account_id := 1, to_account_id := 2, amount := 100 }
    false
    (fun c => match c with
      | Currency.EGP => some 49
      | _ => none)
    _ _ rfl rfl (by decide) (by norm_num) rfl (Or.inl rfl)
  refine ⟨h.1, h.2.1.trans ?_⟩
  norm_num [computedConversionPreview, jsRateOrOne, round2, round4, jsRound]

/-- C2 counterexample: the claim fails on the code. For a USD account with
`initial_balance = 100` and one USD INCOME transaction of 50 on it, the
spec's formula `initial_balance + Σ(signed amounts)` gives 150, but every
balance the frontend reports — `calculateTotalBalance` of the
Dashboard/Analytics pages and `accountService.getTotalBalance` — reads only
`initial_balance` and reports 100; neither takes the transaction list at
all. -/
theorem analytics_balance_ignores_transactions_cex :
    calculateTotalBalance
      [ { id := 1, name := "Main", type := AccountType.CHECKING,
          initial_balance := 100, currency := Currency.USD, owner_id := 1 } ] =
      { amount := 100, currency := Currency.USD } ∧
    getTotalBalance
      [ { id := 1, name := "Main", type := AccountType.CHECKING,
          initial_balance := 100, currency := Currency.USD, owner_id := 1 } ] = 100 ∧
    specAccountBalance
      { id := 1, name := "Main", type := AccountType.CHECKING,
        initial_balance := 100, currency := Currency.USD, owner_id := 1 }
      [ { id := 1, amount := 50, type := TransactionType.INCOME,
          date := ⟨2024, 5, 10⟩, currency := Currency.USD, account_id := 1,
          owner_id := 1 } ] = 150 ∧
    (100 : ℚ) ≠ 150 := by
  refine ⟨?_, ?_, ?_, by norm_num⟩
  · norm_num +decide [calculateTotalBalance]
  · norm_num [getTotalBalance]
  · norm_num +decide [specAccountBalance, signedAmount]

/-- C2 amended: the balances reported by the Analytics component are derived
from `initial_balance` alone — for a same-currency account list the reported
total is the sum of the accounts' `initial_balance` fields in that currency
(and, taking no transaction argument, it is independent of the transaction
store); the signed sum of the accounts' transactions is not added. -/
theorem analytics_balance_is_initial_balance_sum
    (a : Account) (rest : List Account)
    (hsame : ∀ b ∈ a :: rest, b.currency = a.currency) :
    calculateTotalBalance (a :: rest) =
      { amount := ((a :: rest).map Account.initial_balance).sum
        currency := a.currency } ∧
    getTotalBalance (a :: rest) = ((a :: rest).map Account.initial_balance).sum := by
  have hall : (a :: rest).all (fun b => b.currency == a.currency) = true := by
    rw [List.all_eq_true]
    intro b hb
    exact beq_iff_eq.mpr (hsame b hb)
  constructor
  · simp only [calculateTotalBalance, hall, if_true]
    rw [foldl_add_map Account.initial_balance]
    simp
  · unfold getTotalBalance
    rw [foldl_add_map Account.initial_balance]
    simp

/-- C2 amended witness: two EUR accounts with initial balances 100 and 50
report a 150 EUR total, whatever transactions exist. -/
theorem analytics_balance_is_initial_balance_sum_witness :
    calculateTotalBalance
      [ { id := 1, name := "A", type := AccountType.CHECKING,
          initial_balance := 100, currency := Currency.EUR, owner_id := 1 },
        { id := 2, name := "B", type := AccountType.SAVINGS,
          initial_balance := 50, currency := Currency.EUR, owner_id := 1 } ] =
      { amount := 150, currency := Currency.EUR } ∧
    getTotalBalance
      [ { id := 1, name := "A", type := AccountType.CHECKING,
          initial_balance := 100, currency := Currency.EUR, owner_id := 1 },
        { id := 2, name := "B", type := AccountType.SAVINGS,
          initial_balance := 50, currency := Currency.EUR, owner_id := 1 } ] = 150 := by
  have h := analytics_balance_is_initial_balance_sum
    { id := 1, name := "A", type := AccountType.CHECKING,
      initial_balance := 100, currency := Currency.EUR, owner_id := 1 }
    [ { id := 2, name := "B", type := AccountType.SAVINGS,
        initial_balance := 50, currency := Currency.EUR, owner_id := 1 } ]
    (by decide)
  refine ⟨h.1.trans ?_, h.2.trans ?_⟩ <;> norm_num

/-- C4 counterexample: the claim fails on the code when no per-currency
total is positive. For the mixed accounts `[{EUR,−100},{GBP,−50}]` the
currency with the largest aggregate balance is GBP (−50 beats −100), but the
dominant-currency fold starts from `{currency: USD, amount: 0}` and no entry
exceeds 0, so `calculateTotalBalance` returns USD — and a GBP income of 10
in the current month yields a headline monthly income of 0 (filtered on
USD), while the claim's GBP-filtered sum is 10. -/
theorem dominant_currency_nonpositive_cex :
    currencyTotals
      [ { id := 1, name := "A", type := AccountType.CHECKING,
          initial_balance := -100, currency := Currency.EUR, owner_id := 1 },
        { id := 2, name := "B", type := AccountType.CREDIT,
          initial_balance := -50, currency := Currency.GBP, owner_id := 1 } ] =
      [(Currency.EUR, -100), (Currency.GBP, -50)] ∧
    (-100 : ℚ) < -50 ∧
    calculateTotalBalance
      [ { id := 1, name := "A", type := AccountType.CHECKING,
          initial_balance := -100, currency := Currency.EUR, owner_id := 1 },
        { id := 2, name := "B", type := AccountType.CREDIT,
          initial_balance := -50, currency := Currency.GBP, owner_id := 1 } ] =
      { amount := 0, currency := Currency.USD } ∧
    Currency.USD ≠ Currency.GBP ∧
    monthlyIncome
      [ { id := 1, amount := 10, type := TransactionType.INCOME,
          date := ⟨2024, 5, 3⟩, currency := Currency.GBP, account_id := 2,
          owner_id := 1 } ] 5 2024
      [ { id := 1, name := "A", type := AccountType.CHECKING,
          initial_balance := -100, currency := Currency.EUR, owner_id := 1 },
        { id := 2, name := "B", type := AccountType.CREDIT,
          initial_balance := -50, currency := Currency.GBP, owner_id := 1 } ] = 0 ∧
    (((monthlyTransactions
        [ { id := 1, amount := 10, type := TransactionType.INCOME,
            date := ⟨2024, 5, 3⟩, currency := Currency.GBP, account_id := 2,
            owner_id := 1 } ] 5 2024).filter
        (fun t => t.type == TransactionType.INCOME)).filter
        (fun t => t.currency == Currency.GBP)).foldl
      (fun sum t => sum + t.amount) 0 = 10 ∧
    (0 : ℚ) ≠ 10 := by
  refine ⟨?_, by norm_num, ?_, by decide, ?_, ?_, by norm_num⟩
  · norm_num +decide [currencyTotals, addToCurrencyTotals]
  · norm_num +decide [calculateTotalBalance, currencyTotals,
      addToCurrencyTotals, pickDominantPair, pickBetter]
  · norm_num +decide [monthlyIncome, monthlyTransactions,
      calculateTotalBalance, currencyTotals, addToCurrencyTotals,
      pickDominantPair, pickBetter]
  · norm_num +decide [monthlyTransactions]

/-- C4 amended: with mixed-currency accounts, when some currency `c` has a
positive per-currency balance total strictly larger than every other entry,
the display currency chosen by `calculateTotalBalance` is `c`, and the
headline monthly income and expense totals sum exactly the current-month
transactions whose currency equals `c` — transactions in any other currency
are dropped by the currency filter, not converted. -/
theorem monthly_totals_filter_dominant_currency
    (accounts : List Account) (transactions : List Transaction)
    (currentMonth currentYear : Nat) (c : Currency) (amt : ℚ)
    (a b : Account) (ha : a ∈ accounts) (hb : b ∈ accounts)
    (hab : a.currency ≠ b.currency)
    (hmem : (c, amt) ∈ currencyTotals accounts) (hpos : 0 < amt)
    (hmax : ∀ p ∈ currencyTotals accounts, p ≠ (c, amt) → p.2 < amt) :
    (calculateTotalBalance accounts).currency = c ∧
    monthlyIncome transactions currentMonth currentYear accounts =
      (((monthlyTransactions transactions currentMonth currentYear).filter
          (fun t => t.type == TransactionType.INCOME)).filter
          (fun t => t.currency == c)).foldl (fun sum t => sum + t.amount) 0 ∧
    monthlyExpenses transactions currentMonth currentYear accounts =
      (((monthlyTransactions transactions currentMonth currentYear).filter
          (fun t => t.type == TransactionType.EXPENSE)).filter
          (fun t => t.currency == c)).foldl (fun sum t => sum + t.amount) 0 := by
  have hcurr : (calculateTotalBalance accounts).currency = c := by
    cases accounts with
    | nil => exact absurd ha (List.not_mem_nil a)
    | cons first rest =>
      have hnotall : ¬ (first :: rest).all (fun x => x.currency == first.currency) = true := by
        intro hall
        rw [List.all_eq_true] at hall
        have h1 := hall a ha
        have h2 := hall b hb
        rw [beq_iff_eq] at h1 h2
        exact hab (h1.trans h2.symm)
      simp only [calculateTotalBalance, hnotall, if_false]
      rw [pickDominantPair_eq _ c amt hmem hpos hmax]
      simp
  refine ⟨hcurr, ?_, ?_⟩
  · simp only [monthlyIncome, hcurr]
  · simp only [monthlyExpenses, hcurr]

/-- C4 witness: for accounts `[{EUR,100},{EUR,50},{USD,30}]` the dominant
currency is EUR, and with one EUR income of 20, one USD income of 7 and one
EUR expense of 4 in the current month, the headline totals are 20 and 4 —
the USD income is excluded. -/
theorem monthly_totals_filter_dominant_currency_witness :
    (calculateTotalBalance
      [ { id := 1, name := "A", type := AccountType.CHECKING,
          initial_balance := 100, currency := Currency.EUR, owner_id := 1 },
        { id := 2, name := "B", type := AccountType.SAVINGS,
          initial_balance := 50, currency := Currency.EUR, owner_id := 1 },
        { id := 3, name := "C", type := AccountType.CHECKING,
          initial_balance := 30, currency := Currency.USD, owner_id := 1 } ]).currency
      = Currency.EUR ∧
    monthlyIncome
      [ { id := 1, amount := 20, type := TransactionType.INCOME,
          date := ⟨2024, 5, 3⟩, currency := Currency.EUR, account_id := 1,
          owner_id := 1 },
        { id := 2, amount := 7, type := TransactionType.INCOME,
          date := ⟨2024, 5, 4⟩, currency := Currency.USD, account_id := 3,
          owner_id := 1 },
        { id := 3, amount := 4, type := TransactionType.EXPENSE,
          date := ⟨2024, 5, 5⟩, currency := Currency.EUR, account_id := 1,
          owner_id := 1 } ] 5 2024
      [ { id := 1, name := "A", type := AccountType.CHECKING,
          initial_balance := 100, currency := Currency.EUR, owner_id := 1 },
        { id := 2, name := "B", type := AccountType.SAVINGS,
          initial_balance := 50, currency := Currency.EUR, owner_id := 1 },
        { id := 3, name := "C", type := AccountType.CHECKING,
          initial_balance := 30, currency := Currency.USD, owner_id := 1 } ] = 20 ∧
    monthlyExpenses
      [ { id := 1, amount := 20, type := TransactionType.INCOME,
          date := ⟨2024, 5, 3⟩, currency := Currency.EUR, account_id := 1,
          owner_id := 1 },
        { id := 2, amount := 7, type := TransactionType.INCOME,
          date := ⟨2024, 5, 4⟩, currency := Currency.USD, account_id := 3,
          owner_id := 1 },
        { id := 3, amount := 4, type := TransactionType.EXPENSE,
          date := ⟨2024, 5, 5⟩, currency := Currency.EUR, account_id := 1,
          owner_id := 1 } ] 5 2024
      [ { id := 1, name := "A", type := AccountType.CHECKING,
          initial_balance := 100, currency := Currency.EUR, owner_id := 1 },
        { id := 2, name := "B", type := AccountType.SAVINGS,
          initial_balance := 50, currency := Currency.EUR, owner_id := 1 },
        { id := 3, name := "C", type := AccountType.CHECKING,
          initial_balance := 30, currency := Currency.USD, owner_id := 1 } ] = 4 := by
  have h := monthly_totals_filter_dominant_currency
    [ { id := 1, name := "A", type := AccountType.CHECKING,
        initial_balance := 100, currency := Currency.EUR, owner_id := 1 },
      { id := 2, name := "B", type := AccountType.SAVINGS,
        initial_balance := 50, currency := Currency.EUR, owner_id := 1 },
      { id := 3, name := "C", type := AccountType.CHECKING,
        initial_balance := 30, currency := Currency.USD, owner_id := 1 } ]
    [ { id := 1, amount := 20, type := TransactionType.INCOME,
        date := ⟨2024, 5, 3⟩, currency := Currency.EUR, account_id := 1,
        owner_id := 1 },
      { id := 2, amount := 7, type := TransactionType.INCOME,
        date := ⟨2024, 5, 4⟩, currency := Currency.USD, account_id := 3,
        owner_id := 1 },
      { id := 3, amount := 4, type := TransactionType.EXPENSE,
        date := ⟨2024, 5, 5⟩, currency := Currency.EUR, account_id := 1,
        owner_id := 1 } ]
    5 2024 Currency.EUR 150
    { id := 1, name := "A", type := AccountType.CHECKING,
      initial_balance := 100, currency := Currency.EUR, owner_id := 1 }
    { id := 3, name := "C", type := AccountType.CHECKING,
      initial_balance := 30, currency := Currency.USD, owner_id := 1 }
    (by norm_num) (by norm_num) (by decide)
    (by norm_num +decide [currencyTotals, addToCurrencyTotals])
    (by norm_num)
    (by norm_num +decide [currencyTotals, addToCurrencyTotals])
  refine ⟨h.1, h.2.1.trans ?_, h.2.2.trans ?_⟩ <;>
    norm_num +decide [monthlyTransactions]

/-- C7: a transfer request with identical source and destination accounts
always fails with ValidationError and creates no transaction rows (the store
is unchanged), and the frontend `handleSubmit` guard blocks such a
submission before any request is sent. -/
theorem transfer_same_account_validation_error
    (accounts : List Account) (db : List Transaction)
    (req : TransferCreateRequest) (rates : Currency → Option ℚ)
    (today : DateYMD)
    (h : req.from_account_id = req.to_account_id) :
    processTransfer accounts db req rates today =
      Except.error TransferError.validationError ∧
    dbAfterTransfer accounts db req rates today = db ∧
    handleSubmit req = SubmitAction.blocked := by
  have hp : processTransfer accounts db req rates today =
      Except.error TransferError.validationError := by
    unfold processTransfer
    by_cases ha : req.amount ≤ 0 <;> simp [ha, h]
  refine ⟨hp, ?_, ?_⟩
  · unfold dbAfterTransfer
    rw [hp]
  · unfold handleSubmit
    rw [if_pos h]

/-- C7 witness: a concrete transfer of 5 from account 1 to account 1 is
rejected with ValidationError, leaves the empty store empty, and is blocked
by the frontend guard. -/
theorem transfer_same_account_validation_error_witness :
    processTransfer [] []
      { from_account_id := 1, to_account_id := 1, amount := 5 }
      (fun _ => none) ⟨2024, 5, 1⟩ =
      Except.error TransferError.validationError ∧
    dbAfterTransfer [] []
      { from_account_id := 1, to_account_id := 1, amount := 5 }
      (fun _ => none) ⟨2024, 5, 1⟩ = [] ∧
    handleSubmit { from_account_id := 1, to_account_id := 1, amount := 5 } =
      SubmitAction.blocked :=
  transfer_same_account_validation_error [] []
    { from_account_id := 1, to_account_id := 1, amount := 5 }
    (fun _ => none) ⟨2024, 5, 1⟩ rfl

/-- C8: one firing of an active recurring template advances `next_due_date`
by exactly one period of its frequency — DAILY one day, WEEKLY seven days,
MONTHLY one calendar month with the day-of-month preserved where valid,
QUARTERLY three calendar months, YEARLY one calendar year — and in
particular a MONTHLY template due 2024-01-31 advances to 2024-02-29. -/
theorem recurring_advance_one_period
    (today : DateYMD) (t : RecurringTransaction)
    (h : t.is_active = true) :
    (∃ tx t2, fireTemplate today t = Except.ok (tx, t2) ∧
        t2.next_due_date = advanceDueDate t.frequency t.next_due_date ∧
        tx.recurring_transaction_id = some t.id) ∧
    advanceDueDate RecurrenceFrequency.DAILY t.next_due_date =
      nextDay t.next_due_date ∧
    advanceDueDate RecurrenceFrequency.WEEKLY t.next_due_date =
      nextDay^[7] t.next_due_date ∧
    advanceDueDate RecurrenceFrequency.QUARTERLY t.next_due_date =
      addMonthsClamped 3 t.next_due_date ∧
    advanceDueDate RecurrenceFrequency.YEARLY t.next_due_date =
      addMonthsClamped 12 t.next_due_date ∧
    (∀ d : DateYMD,
        d.day ≤ daysInMonth ((d.year * 12 + (d.month - 1) + 1) / 12)
          ((d.year * 12 + (d.month - 1) + 1) % 12 + 1) →
        (advanceDueDate RecurrenceFrequency.MONTHLY d).day = d.day ∧
        (advanceDueDate RecurrenceFrequency.MONTHLY d).month =
          (d.year * 12 + (d.month - 1) + 1) % 12 + 1 ∧
        (advanceDueDate RecurrenceFrequency.MONTHLY d).year =
          (d.year * 12 + (d.month - 1) + 1) / 12) ∧
    advanceDueDate RecurrenceFrequency.MONTHLY ⟨2024, 1, 31⟩ = ⟨2024, 2, 29⟩ := by
  refine ⟨?_, rfl, rfl, rfl, rfl, ?_, ?_⟩
  · simp only [fireTemplate, h, if_true]
    exact ⟨_, _, rfl, rfl, rfl⟩
  · intro d hd
    refine ⟨?_, rfl, rfl⟩
    simp only [advanceDueDate, addMonthsClamped]
    exact min_eq_left hd
  · norm_num [advanceDueDate, addMonthsClamped, daysInMonth, isLeapYear]

/-- C8 witness: firing the MONTHLY template due 2024-01-31 yields a new due
date of 2024-02-29 and a transaction back-referencing the template. -/
theorem recurring_advance_one_period_witness :
    fireTemplate ⟨2024, 2, 1⟩
      { id := 7, name := "Rent", amount := 1200,
        type := TransactionType.EXPENSE, currency := Currency.USD,
        frequency := RecurrenceFrequency.MONTHLY,
        start_date := ⟨2024, 1, 31⟩, next_due_date := ⟨2024, 1, 31⟩,
        is_active := true, account_id := 1 } =
      Except.ok
        ({ id := 0, amount := 1200, type := TransactionType.EXPENSE,
           date := ⟨2024, 2, 1⟩, currency := Currency.USD, account_id := 1,
           recurring_transaction_id := some 7 },
         { id := 7, name := "Rent", amount := 1200,
           type := TransactionType.EXPENSE, currency := Currency.USD,
           frequency := RecurrenceFrequency.MONTHLY,
           start_date := ⟨2024, 1, 31⟩, next_due_date := ⟨2024, 2, 29⟩,
           is_active := true, account_id := 1 }) ∧
    advanceDueDate RecurrenceFrequency.MONTHLY ⟨2024, 1, 31⟩ = ⟨2024, 2, 29⟩ := by
  have h := recurring_advance_one_period ⟨2024, 2, 1⟩
    { id := 7, name := "Rent", amount := 1200,
      type := TransactionType.EXPENSE, currency := Currency.USD,
      frequency := RecurrenceFrequency.MONTHLY,
      start_date := ⟨2024, 1, 31⟩, next_due_date := ⟨2024, 1, 31⟩,
      is_active := true, account_id := 1 } rfl
  refine ⟨?_, h.2.2.2.2.2.2⟩
  norm_num +decide [fireTemplate, advanceDueDate, addMonthsClamped,
    daysInMonth, isLeapYear]

/-- C10: after `setUsername v` (respectively `setPassword v`) in a browser
context, the corresponding getter returns `v` and `v` is persisted in
`sessionStorage` under `'login_form_username'` (respectively
`'login_form_password'`); after `clear`, both getters return the empty
string and both keys are removed. -/
theorem login_form_state_roundtrip
    (s : LoginFormManagerState) (st : SessionStorage) (v : String) :
    (getUsername true (setUsername true st s v).2 (setUsername true st s v).1).1 = v ∧
    (setUsername true st s v).2 usernameKey = some v ∧
    (getPassword true (setPassword true st s v).2 (setPassword true st s v).1).1 = v ∧
    (setPassword true st s v).2 passwordKey = some v ∧
    (getUsername true (clearLoginForm true st s).2 (clearLoginForm true st s).1).1 = "" ∧
    (getPassword true (clearLoginForm true st s).2 (clearLoginForm true st s).1).1 = "" ∧
    (clearLoginForm true st s).2 usernameKey = none ∧
    (clearLoginForm true st s).2 passwordKey = none := by
  by_cases hi : s.initialized <;>
    simp [getUsername, getPassword, setUsername, setPassword, clearLoginForm,
      loadFromStorage, setItem, removeItem, usernameKey, passwordKey, hi]

end Wallet
